import Mathlib

/-!
Verification of the hackabot scheduling / webhook core against its source.

The embedding follows `hackabot/apps/worker/run.py` and
`hackabot/apps/bot/views.py` (plus the model declarations of
`hackabot/apps/bot/models.py`).  Machine conventions:

* Wall-clock instants that the worker inspects through `arrow` (weekday /
  hour / minute) are modelled as `Int` minutes since a reference epoch that
  falls on a Monday at 00:00 in the relevant timezone.
* Database timestamps (`django.utils.timezone.now()` values and the
  `last_*_sent_at` markers, plus the UTC instants used by the attendance
  window in `views.py`) are modelled as `Int` seconds since the same
  Monday-aligned epoch.
* Python's `//` and `%` on integers are floor division / floor modulus;
  for the positive divisors used here (60, 1440, 86400, 604800) these agree
  with Lean's `Int.ediv` / `Int.emod`, i.e. with `/` and `%` on `Int`.
-/

namespace Hackabot

/-- Minutes in a day, for the minute-scale clock used by the worker. -/
def minutesPerDay : Int := 1440

/-- Python `datetime.weekday()` (0 = Monday) of a minute-scale instant,
given the Monday-aligned epoch. -/
def weekdayM (t : Int) : Int := (t / 1440) % 7

/-- The `hour` field of a minute-scale instant. -/
def hourM (t : Int) : Int := (t % 1440) / 60

/-- The `minute` field of a minute-scale instant. -/
def minuteM (t : Int) : Int := t % 60

/-- `arrow`'s `replace(hour=h, minute=m, second=0, microsecond=0)`:
keep the date, replace the time of day. -/
def replaceTimeM (t h m : Int) : Int := t - t % 1440 + (h * 60 + m)

/-- `arrow`'s `shift(minutes=d)` on a minute-scale instant. -/
def shiftMinutesM (t d : Int) : Int := t + d

/-- Python `timedelta.days` of `a - b` for second-scale timestamps:
floor division of the elapsed seconds by 86400. -/
def elapsedDays (a b : Int) : Int := (a - b) / 86400

/-! ## Worker scheduling (`hackabot/apps/worker/run.py`) -/

/-- `POLL_DAY = 0` (Monday). -/
def POLL_DAY : Int := 0

/-- `POLL_HOUR = 7`. -/
def POLL_HOUR : Int := 7

/-- `POLL_MINUTE = 0`. -/
def POLL_MINUTE : Int := 0

/-- `REMINDER_MINUTES_BEFORE = 30`. -/
def REMINDER_MINUTES_BEFORE : Int := 30

/-- The fields of a `Node` that the worker reads.  `group` holds the linked
Group's telegram id when a Group is linked.  `models.py` in this snapshot
omits the `event_day`, `disabled` and `last_poll_sent_at` columns that
`run.py` reads; they are modelled from the spec's data model (§3): an
event-day weekday index 0-6, a disabled flag, and a nullable
`last_poll_sent_at` marker (seconds). -/
structure WNode where
  id : Nat
  group : Option Int
  disabled : Bool
  event_day : Int
  last_poll_sent_at : Option Int
  deriving Repr, DecidableEq

/-- Event types, from `Event.TYPE_CHOICES` in `models.py`. -/
inductive EventType where
  | intros
  | lunch
  | demos
  | drinks
  deriving Repr, DecidableEq

/-- The fields of an `Event` that the worker reads: its node, its type, its
time of day (`time.hour`, `time.minute`), and the `last_reminder_sent_at`
marker (omitted from this snapshot's `models.py`, modelled from the spec's
data model §3 as a nullable timestamp in seconds). -/
structure WEvent where
  node : WNode
  type : EventType
  hour : Int
  minute : Int
  last_reminder_sent_at : Option Int
  deriving Repr, DecidableEq

/-- `should_send_poll(node, now_utc)` from `run.py`.  `now_utc` is the arrow
instant passed by `process_node_poll` (minute scale); `db_now` is the value
`timezone.now()` returns when the cooldown reads the clock (second scale). -/
def should_send_poll (node : WNode) (now_utc db_now : Int) : Bool :=
  if weekdayM now_utc ≠ POLL_DAY then false
  else if hourM now_utc ≠ POLL_HOUR then false
  else if minuteM now_utc ≠ POLL_MINUTE then false
  else
    match node.last_poll_sent_at with
    | none => true
    | some last => decide (¬ elapsedDays db_now last < 6)

/-- `should_send_event_reminder(event, now_in_tz)` from `run.py`.
`now_in_tz` is the arrow instant in the node's timezone (minute scale);
`db_now` is the `timezone.now()` value read by the cooldown (second
scale). -/
def should_send_event_reminder (event : WEvent) (now_in_tz db_now : Int) : Bool :=
  if weekdayM now_in_tz ≠ event.node.event_day then false
  else
    let event_datetime := replaceTimeM now_in_tz event.hour event.minute
    let reminder_datetime :=
      if event.type = EventType.drinks then event_datetime
      else shiftMinutesM event_datetime (-REMINDER_MINUTES_BEFORE)
    if hourM now_in_tz ≠ hourM reminder_datetime then false
    else if minuteM now_in_tz ≠ minuteM reminder_datetime then false
    else
      match event.last_reminder_sent_at with
      | none => true
      | some last => decide (¬ elapsedDays db_now last < 6)

/-- Characterization of `should_send_poll`: fires exactly on Monday (weekday 0)
at 07:00, gated by the 6-elapsed-day cooldown on `last_poll_sent_at`. -/
theorem should_send_poll_iff (node : WNode) (now_utc db_now : Int) :
    should_send_poll node now_utc db_now = true ↔
      (weekdayM now_utc = 0 ∧ hourM now_utc = 7 ∧ minuteM now_utc = 0 ∧
        (node.last_poll_sent_at = none ∨
          ∃ last, node.last_poll_sent_at = some last ∧ 6 ≤ elapsedDays db_now last)) := by
  unfold should_send_poll POLL_DAY POLL_HOUR POLL_MINUTE
  rcases node.last_poll_sent_at with _ | last <;> split_ifs with h1 h2 h3 <;> simp_all <;> omega

/-- C2: `should_send_poll(node, now)` returns true iff `now` (UTC) falls on
Monday at 07:00 exactly and the cooldown passes.  `420` is Monday 07:00 on the
minute-scale clock, `421` is Monday 07:01, `1860` is Tuesday 07:00.  The
cooldown passes when `last_poll_sent_at` is unset or at least 6 elapsed days
old (so a 7-day-old marker passes and a 3-day-old marker fails), evaluated
against the `timezone.now()` reading `db`. -/
theorem should_send_poll_cadence :
    (∀ (node : WNode) (now_utc db_now : Int),
      should_send_poll node now_utc db_now = true ↔
        (weekdayM now_utc = 0 ∧ hourM now_utc = 7 ∧ minuteM now_utc = 0 ∧
          (node.last_poll_sent_at = none ∨
            ∃ last, node.last_poll_sent_at = some last ∧ 6 ≤ elapsedDays db_now last))) ∧
    (∀ (i : Nat) (g : Option Int) (d : Bool) (e db : Int),
      should_send_poll ⟨i, g, d, e, none⟩ 420 db = true) ∧
    (∀ (i : Nat) (g : Option Int) (d : Bool) (e db : Int),
      should_send_poll ⟨i, g, d, e, some (db - 3 * 86400)⟩ 420 db = false) ∧
    (∀ (i : Nat) (g : Option Int) (d : Bool) (e db : Int),
      should_send_poll ⟨i, g, d, e, some (db - 7 * 86400)⟩ 420 db = true) ∧
    (∀ (node : WNode) (db : Int), should_send_poll node 421 db = false) ∧
    (∀ (node : WNode) (db : Int), should_send_poll node 1860 db = false) := by
  refine ⟨should_send_poll_iff, ?_, ?_, ?_, ?_, ?_⟩ <;>
    intros <;>
    simp only [should_send_poll, weekdayM, hourM, minuteM, elapsedDays,
      POLL_DAY, POLL_HOUR, POLL_MINUTE] <;>
    norm_num <;>
    omega

/-- Characterization of `should_send_event_reminder` for non-drinks events
with no prior reminder: it fires exactly when the weekday matches the node's
event day and the minute-of-day equals the event's time of day shifted back
30 minutes (hour/minute comparison, wrapping modulo one day). -/
theorem reminder_nondrinks_iff (e : WEvent) (now db : Int)
    (ht : e.type ≠ EventType.drinks) (hl : e.last_reminder_sent_at = none) :
    should_send_event_reminder e now db = true ↔
      (weekdayM now = e.node.event_day ∧
        now % 1440 = (e.hour * 60 + e.minute - 30) % 1440) := by
  unfold should_send_event_reminder replaceTimeM shiftMinutesM
    REMINDER_MINUTES_BEFORE
  simp only [hl, if_neg ht]
  split_ifs with h1 h2 h3 <;>
    simp_all [weekdayM, hourM, minuteM] <;> omega

/-- Characterization of `should_send_event_reminder` for drinks events with
no prior reminder: it fires exactly at the event's own hour and minute on the
node's event day (no lead offset). -/
theorem reminder_drinks_iff (e : WEvent) (now db : Int)
    (ht : e.type = EventType.drinks) (hl : e.last_reminder_sent_at = none) :
    should_send_event_reminder e now db = true ↔
      (weekdayM now = e.node.event_day ∧
        now % 1440 = (e.hour * 60 + e.minute) % 1440) := by
  unfold should_send_event_reminder replaceTimeM shiftMinutesM
    REMINDER_MINUTES_BEFORE
  simp only [hl, if_pos ht]
  split_ifs with h1 h2 h3 <;>
    simp_all [weekdayM, hourM, minuteM] <;> omega

/-- C3: for a non-drinks event with no prior reminder, the reminder fires
exactly on the node's event day when the hour/minute equal the event time
minus 30 minutes (and not at the event's own time); for a drinks event it
fires exactly at the event's own hour and minute (and not 30 minutes
before). -/
theorem event_reminder_lead_offset (e : WEvent) (now db : Int)
    (hl : e.last_reminder_sent_at = none) :
    (e.type ≠ EventType.drinks →
      (should_send_event_reminder e now db = true ↔
        (weekdayM now = e.node.event_day ∧
          now % 1440 = (e.hour * 60 + e.minute - 30) % 1440))) ∧
    (e.type ≠ EventType.drinks → weekdayM now = e.node.event_day →
      now % 1440 = (e.hour * 60 + e.minute) % 1440 →
      should_send_event_reminder e now db = false) ∧
    (e.type = EventType.drinks →
      (should_send_event_reminder e now db = true ↔
        (weekdayM now = e.node.event_day ∧
          now % 1440 = (e.hour * 60 + e.minute) % 1440))) ∧
    (e.type = EventType.drinks → weekdayM now = e.node.event_day →
      now % 1440 = (e.hour * 60 + e.minute - 30) % 1440 →
      should_send_event_reminder e now db = false) := by
  refine ⟨fun ht => reminder_nondrinks_iff e now db ht hl, ?_, ?_, ?_⟩
  · intro ht hw hmod
    by_contra hne
    have : should_send_event_reminder e now db = true := by
      cases h : should_send_event_reminder e now db
      · exact absurd h hne
      · rfl
    have := (reminder_nondrinks_iff e now db ht hl).mp this
    omega
  · intro ht
    exact reminder_drinks_iff e now db ht hl
  · intro ht hw hmod
    by_contra hne
    have : should_send_event_reminder e now db = true := by
      cases h : should_send_event_reminder e now db
      · exact absurd h hne
      · rfl
    have := (reminder_drinks_iff e now db ht hl).mp this
    omega

/-- Witness for C3: an intros event at 09:30 on a node with event day
Thursday fires at Thursday 09:00 (minute 4860 of the week) and not at 09:30;
a drinks event at 18:00 fires at 18:00 and not at 17:30. -/
theorem event_reminder_lead_offset_witness :
    should_send_event_reminder
      ⟨⟨1, some 5, false, 3, none⟩, EventType.intros, 9, 30, none⟩ 4860 0 = true ∧
    should_send_event_reminder
      ⟨⟨1, some 5, false, 3, none⟩, EventType.intros, 9, 30, none⟩ 4890 0 = false ∧
    should_send_event_reminder
      ⟨⟨1, some 5, false, 3, none⟩, EventType.drinks, 18, 0, none⟩ 5400 0 = true ∧
    should_send_event_reminder
      ⟨⟨1, some 5, false, 3, none⟩, EventType.drinks, 18, 0, none⟩ 5370 0 = false := by
  refine ⟨((event_reminder_lead_offset _ 4860 0 rfl).1 (by decide)).mpr (by decide),
          (event_reminder_lead_offset _ 4890 0 rfl).2.1 (by decide) (by decide) (by decide),
          ((event_reminder_lead_offset _ 5400 0 rfl).2.2.1 rfl).mpr (by decide),
          (event_reminder_lead_offset _ 5370 0 rfl).2.2.2 rfl (by decide) (by decide)⟩

/-- C10: for a non-drinks event earlier than 00:30 with no prior reminder,
the 30-minute backward shift crosses midnight but only hour and minute are
compared, while the weekday check uses the current day: the reminder fires on
the event day itself at hour/minute equal to the event time plus 23h30m
(minute-of-day `e.minute + 1410`), and does not fire at the true "30 minutes
before the event" instant, which falls on the preceding weekday. -/
theorem event_reminder_midnight_wrap (e : WEvent) (now now2 db : Int)
    (ht : e.type ≠ EventType.drinks) (hl : e.last_reminder_sent_at = none)
    (hh : e.hour = 0) (hm0 : 0 ≤ e.minute) (hm : e.minute < 30) :
    (weekdayM now = e.node.event_day → now % 1440 = e.minute + 1410 →
      should_send_event_reminder e now db = true) ∧
    (weekdayM now2 = (e.node.event_day + 6) % 7 → now2 % 1440 = e.minute + 1410 →
      should_send_event_reminder e now2 db = false) := by
  constructor
  · intro hw hmod
    exact (reminder_nondrinks_iff e now db ht hl).mpr ⟨hw, by omega⟩
  · intro hw hmod
    by_contra hne
    have : should_send_event_reminder e now2 db = true := by
      cases h : should_send_event_reminder e now2 db
      · exact absurd h hne
      · rfl
    have := (reminder_nondrinks_iff e now2 db ht hl).mp this
    omega

/-- Witness for C10: an intros event at 00:15 on a node with event day
Monday fires at Monday 23:45 (minute 1425) and not at Sunday 23:45
(minute 10065 of the week, the instant 30 minutes before the event). -/
theorem event_reminder_midnight_wrap_witness :
    should_send_event_reminder
      ⟨⟨1, some 5, false, 0, none⟩, EventType.intros, 0, 15, none⟩ 1425 0 = true ∧
    should_send_event_reminder
      ⟨⟨1, some 5, false, 0, none⟩, EventType.intros, 0, 15, none⟩ 10065 0 = false := by
  refine ⟨(event_reminder_midnight_wrap _ 1425 10065 0 (by decide) rfl rfl
      (by decide) (by decide)).1 (by decide) (by decide),
    (event_reminder_midnight_wrap _ 1425 10065 0 (by decide) rfl rfl
      (by decide) (by decide)).2 (by decide) (by decide)⟩

/-! ## Recurring-action dispatcher (`process_node_poll` / `check_all_nodes`) -/

/-- `process_node_poll(node)` from `run.py`.  The external `send_poll`
collaborator is modelled by the oracle `sendOk` (true = the call completes,
false = it raises).  Returns the node row after the call (the
`last_poll_sent_at` marker is written only after a successful send), the
exceptions reported to `sentry_sdk.capture_exception` (by node id), and the
successfully delivered polls (by node id). -/
def process_node_poll (sendOk : Nat → Bool) (now_utc db_now : Int) (node : WNode) :
    WNode × List Nat × List Nat :=
  if should_send_poll node now_utc db_now then
    if sendOk node.id then
      ({ node with last_poll_sent_at := some db_now }, [], [node.id])
    else
      (node, [node.id], [])
  else (node, [], [])

/-- The body of the `for node in nodes` loop of `check_all_nodes` in
`run.py`, restricted to its poll pass: process each node of the (already
filtered) queryset in order, concatenating the reported exceptions and the
delivered polls. -/
def process_nodes_polls (sendOk : Nat → Bool) (now_utc db_now : Int) :
    List WNode → List WNode × List Nat × List Nat
  | [] => ([], [], [])
  | n :: rest =>
    let r := process_node_poll sendOk now_utc db_now n
    let rs := process_nodes_polls sendOk now_utc db_now rest
    (r.1 :: rs.1, r.2.1 ++ rs.2.1, r.2.2 ++ rs.2.2)

/-- The dispatcher queryset
`Node.objects.filter(group__isnull=False, disabled=False)`. -/
def eligible_nodes (nodes : List WNode) : List WNode :=
  nodes.filter (fun n => n.group.isSome && !n.disabled)

/-- The poll pass of `check_all_nodes` from `run.py`: filter to nodes with a
linked group and not disabled, then run `process_node_poll` on each.  The
event-reminder, weekly-summary and photo-cleanup passes of the same tick
touch disjoint state and are not modelled. -/
def check_all_nodes_polls (sendOk : Nat → Bool) (now_utc db_now : Int)
    (nodes : List WNode) : List WNode × List Nat × List Nat :=
  process_nodes_polls sendOk now_utc db_now (eligible_nodes nodes)

/-- The node rows produced by the loop are the per-node results, in order. -/
theorem process_nodes_polls_nodes (sendOk : Nat → Bool) (now db : Int)
    (l : List WNode) :
    (process_nodes_polls sendOk now db l).1 =
      l.map (fun n => (process_node_poll sendOk now db n).1) := by
  induction l with
  | nil => rfl
  | cons n rest ih => simp [process_nodes_polls, ih]

/-- Anything one node reports to the error collaborator is reported by the
whole tick. -/
theorem process_nodes_polls_reported_mem (sendOk : Nat → Bool) (now db : Int)
    (l : List WNode) (n : WNode) (hn : n ∈ l) (x : Nat)
    (hx : x ∈ (process_node_poll sendOk now db n).2.1) :
    x ∈ (process_nodes_polls sendOk now db l).2.1 := by
  induction l with
  | nil => cases hn
  | cons m rest ih =>
    simp only [process_nodes_polls, List.mem_append]
    rcases List.mem_cons.mp hn with rfl | hmem
    · exact Or.inl hx
    · exact Or.inr (ih hmem)

/-- Anything one node sends is sent by the whole tick. -/
theorem process_nodes_polls_sent_mem (sendOk : Nat → Bool) (now db : Int)
    (l : List WNode) (n : WNode) (hn : n ∈ l) (x : Nat)
    (hx : x ∈ (process_node_poll sendOk now db n).2.2) :
    x ∈ (process_nodes_polls sendOk now db l).2.2 := by
  induction l with
  | nil => cases hn
  | cons m rest ih =>
    simp only [process_nodes_polls, List.mem_append]
    rcases List.mem_cons.mp hn with rfl | hmem
    · exact Or.inl hx
    · exact Or.inr (ih hmem)

/-- C4: per-node outcome of one dispatcher tick, independent of the other
nodes in the same tick.  For every eligible node: if its poll is due and its
send raises, its `last_poll_sent_at` is left unchanged and the exception is
reported; if its poll is due and its send completes, the poll is sent and its
marker is set to the `timezone.now()` reading; a node whose marker changed
must have had a due poll and a completed send (markers are updated only
after the send completed without error). -/
theorem dispatcher_failure_isolation (sendOk : Nat → Bool) (now db : Int)
    (nodes : List WNode) :
    (check_all_nodes_polls sendOk now db nodes).1.length =
        (eligible_nodes nodes).length ∧
    ∀ (i : Nat) (h : i < (eligible_nodes nodes).length)
      (h2 : i < (check_all_nodes_polls sendOk now db nodes).1.length),
      (should_send_poll (eligible_nodes nodes)[i] now db = true →
        sendOk (eligible_nodes nodes)[i].id = false →
        (check_all_nodes_polls sendOk now db nodes).1[i] = (eligible_nodes nodes)[i] ∧
        (eligible_nodes nodes)[i].id ∈ (check_all_nodes_polls sendOk now db nodes).2.1) ∧
      (should_send_poll (eligible_nodes nodes)[i] now db = true →
        sendOk (eligible_nodes nodes)[i].id = true →
        ((check_all_nodes_polls sendOk now db nodes).1[i]).last_poll_sent_at = some db ∧
        (eligible_nodes nodes)[i].id ∈ (check_all_nodes_polls sendOk now db nodes).2.2) ∧
      (should_send_poll (eligible_nodes nodes)[i] now db = false →
        (check_all_nodes_polls sendOk now db nodes).1[i] = (eligible_nodes nodes)[i]) ∧
      (((check_all_nodes_polls sendOk now db nodes).1[i]).last_poll_sent_at ≠
          (eligible_nodes nodes)[i].last_poll_sent_at →
        should_send_poll (eligible_nodes nodes)[i] now db = true ∧
        sendOk (eligible_nodes nodes)[i].id = true ∧
        ((check_all_nodes_polls sendOk now db nodes).1[i]).last_poll_sent_at = some db) := by
  constructor
  · simp [check_all_nodes_polls, process_nodes_polls_nodes]
  · intro i h h2
    have hres : (check_all_nodes_polls sendOk now db nodes).1[i] =
        (process_node_poll sendOk now db (eligible_nodes nodes)[i]).1 := by
      simp [check_all_nodes_polls, process_nodes_polls_nodes]
    have hmem : (eligible_nodes nodes)[i] ∈ eligible_nodes nodes :=
      List.getElem_mem h
    refine ⟨?_, ?_, ?_, ?_⟩
    · intro hdue hfail
      constructor
      · rw [hres]
        simp [process_node_poll, hdue, hfail]
      · refine process_nodes_polls_reported_mem sendOk now db _ _ hmem _ ?_
        simp [process_node_poll, hdue, hfail]
    · intro hdue hok
      constructor
      · rw [hres]
        simp [process_node_poll, hdue, hok]
      · refine process_nodes_polls_sent_mem sendOk now db _ _ hmem _ ?_
        simp [process_node_poll, hdue, hok]
    · intro hdue
      rw [hres]
      simp [process_node_poll, hdue]
    · intro hch
      rw [hres] at hch
      by_cases hdue : should_send_poll (eligible_nodes nodes)[i] now db = true
      · by_cases hok : sendOk (eligible_nodes nodes)[i].id = true
        · refine ⟨hdue, hok, ?_⟩
          rw [hres]
          simp [process_node_poll, hdue, hok]
        · exfalso
          apply hch
          simp [process_node_poll, hdue, Bool.eq_false_iff.mpr hok]
      · exfalso
        apply hch
        simp [process_node_poll, Bool.eq_false_iff.mpr hdue]

/-- Witness for C4: two nodes both due for a poll on Monday 07:00, the
first node's send raises (`sendOk = (· == 2)`): the first node's marker stays
unset and its error is reported, while the second node's poll is still sent
and its marker updated. -/
theorem dispatcher_failure_isolation_witness :
    (check_all_nodes_polls (fun i => i == 2) 420 100
        [⟨1, some 10, false, 3, none⟩, ⟨2, some 20, false, 3, none⟩]).1.get
        ⟨0, by decide⟩ = ⟨1, some 10, false, 3, none⟩ ∧
    1 ∈ (check_all_nodes_polls (fun i => i == 2) 420 100
        [⟨1, some 10, false, 3, none⟩, ⟨2, some 20, false, 3, none⟩]).2.1 ∧
    ((check_all_nodes_polls (fun i => i == 2) 420 100
        [⟨1, some 10, false, 3, none⟩, ⟨2, some 20, false, 3, none⟩]).1.get
        ⟨1, by decide⟩).last_poll_sent_at = some 100 ∧
    2 ∈ (check_all_nodes_polls (fun i => i == 2) 420 100
        [⟨1, some 10, false, 3, none⟩, ⟨2, some 20, false, 3, none⟩]).2.2 := by
  have h := dispatcher_failure_isolation (fun i => i == 2) 420 100
      [⟨1, some 10, false, 3, none⟩, ⟨2, some 20, false, 3, none⟩]
  have h0 := (h.2 0 (by decide) (by decide)).1 (by decide) (by decide)
  have h1 := (h.2 1 (by decide) (by decide)).2.1 (by decide) (by decide)
  refine ⟨?_, h0.2, ?_, h1.2⟩
  · simp only [List.get_eq_getElem]
    exact h0.1.trans (by decide)
  · simp only [List.get_eq_getElem]
    exact h1.1

/-! ## Webhook data model (`hackabot/apps/bot/models.py`)

Rows are identified the way the handlers in `views.py` look them up:
persons and groups by their unique `telegram_id`, polls by their unique
`telegram_id` string, memberships by the unique `(group, person)` pair,
activity buckets by the unique `(person, group, date)` triple, messages by
the unique `(telegram_id, group)` pair.  String operations that the handlers
need are re-implemented over `List Char` so that they evaluate by kernel
reduction; they model the ASCII behaviour of the Python originals, which is
the behaviour the handlers rely on. -/

structure PersonRow where
  telegram_id : Int
  is_bot : Bool
  first_name : String
  username : String
  privacy : Bool
  username_x : String
  bio : String
  onboarded : Bool
  deriving Repr, DecidableEq

structure GroupRow where
  telegram_id : Int
  display_name : String
  deriving Repr, DecidableEq

structure GroupPersonRow where
  group : Int
  person : Int
  left : Bool
  last_message_at : Option Int
  deriving Repr, DecidableEq

/-- The fields of a `Node` that the webhook handlers read: its primary key,
the linked Group's telegram id (if any), and its display name/emoji. -/
structure NodeRef where
  id : Nat
  group : Option Int
  name : String
  emoji : String
  deriving Repr, DecidableEq

structure PollRow where
  telegram_id : String
  node : Option Nat
  question : String
  yes_count : Nat
  no_count : Nat
  deriving Repr, DecidableEq

structure PollAnswerRow where
  poll : String
  person : Int
  yes : Bool
  deriving Repr, DecidableEq

/-- A `Message` row: the dedup ledger keyed by the unique
`(telegram_id, group)` pair (`models.py` lines 203-228). -/
structure MessageRow where
  telegram_id : Int
  group : Int
  deriving Repr, DecidableEq

structure ActivityDayRow where
  person : Int
  group : Int
  date : Int
  message_count : Nat
  deriving Repr, DecidableEq

/-- The database tables the webhook handlers touch, plus the outbound
effects: `sent` records each `send(chat_id, text)` call in order, and `acks`
records each `answer_callback_query(id)` call. -/
structure BotState where
  groups : List GroupRow
  persons : List PersonRow
  groupPersons : List GroupPersonRow
  nodes : List NodeRef
  polls : List PollRow
  answers : List PollAnswerRow
  messages : List MessageRow
  activity : List ActivityDayRow
  sent : List (Int × String)
  acks : List String
  deriving Repr, DecidableEq

/-! ## Envelope shapes (the fields each handler reads, with the Python
`.get(key, default)` defaults baked in: a missing string is `""`, a missing
list is `[]`, a missing boolean is `false`, a missing int is `0`) -/

structure UserData where
  id : Int
  is_bot : Bool
  first_name : String
  username : String
  deriving Repr, DecidableEq

structure ChatData where
  id : Int
  type : String
  title : String
  deriving Repr, DecidableEq

/-- A Telegram `poll` object: its id, question, and the `voter_count` of
each option. -/
structure PollData where
  id : String
  question : String
  options : List Nat
  deriving Repr, DecidableEq

/-- A `poll_answer` object.  `poll_id = ""` models a missing or empty id
(both falsy in Python). -/
structure PollAnswerData where
  poll_id : String
  user : Option UserData
  option_ids : List Nat
  deriving Repr, DecidableEq

/-- The `new_chat_member` sub-object of a `chat_member` update. -/
structure ChatMemberInfo where
  user : Option UserData
  status : String
  deriving Repr, DecidableEq

structure ChatMemberData where
  chat : Option ChatData
  new_chat_member : ChatMemberInfo
  deriving Repr, DecidableEq

/-- A `callback_query` object.  `id = ""` models a missing id;
`chat_id = none` models a missing `message.chat.id` path. -/
structure CallbackQueryData where
  id : String
  data : String
  chat_id : Option Int
  deriving Repr, DecidableEq

/-- A `message` object, with the fields `_handle_message` / `_handle_dm`
read.  `from_user` is the envelope's `from` field (`from` is reserved in
Lean). -/
structure MessageData where
  message_id : Int
  chat : Option ChatData
  new_chat_members : List UserData
  left_chat_member : Option UserData
  from_user : Option UserData
  date : Int
  text : String
  poll : Option PollData
  deriving Repr, DecidableEq

/-! ## String helpers (ASCII models of the Python string operations) -/

/-- ASCII whitespace, as recognised by Python's default `str.split` and
`str.strip`. -/
def isPySpace (c : Char) : Bool :=
  c == ' ' || c == '\t' || c == '\n' || c == '\r' || c == '\x0b' || c == '\x0c'

/-- Python `str.strip()`. -/
def pyStrip (s : String) : String :=
  String.mk (((s.data.dropWhile isPySpace).reverse.dropWhile isPySpace).reverse)

/-- Python `str.split(maxsplit=1)`: leading whitespace dropped, first
whitespace-free token, then the remainder with its leading whitespace
dropped (kept verbatim otherwise); empty pieces are not produced. -/
def pySplitOnce (s : String) : List String :=
  let cs := s.data.dropWhile isPySpace
  if cs = [] then []
  else
    let tok := cs.takeWhile (fun c => !(isPySpace c))
    let rest := (cs.dropWhile (fun c => !(isPySpace c))).dropWhile isPySpace
    if rest = [] then [String.mk tok] else [String.mk tok, String.mk rest]

/-- Python `str.split()` with no arguments: split on whitespace runs,
discarding empty pieces. -/
def pySplitAll (s : String) : List String :=
  (s.split isPySpace).filter (fun t => t ≠ "")

/-- Python `str.lower()` (ASCII model). -/
def pyLower (s : String) : String :=
  String.mk (s.data.map Char.toLower)

/-- Python `c in s` for a single character. -/
def pyContains (s : String) (c : Char) : Bool :=
  s.data.contains c

/-- Python `str.startswith`. -/
def pyStartsWith (s pre : String) : Bool :=
  pre.data.isPrefixOf s.data

/-- A character matched by the regex class `\w` (ASCII model of
`re`'s word character). -/
def isWordChar (c : Char) : Bool :=
  (c ≥ 'a' && c ≤ 'z') || (c ≥ 'A' && c ≤ 'Z') || (c ≥ '0' && c ≤ '9') || c == '_'

/-- Python `re.search(r"/\w+", s)` as a Boolean: some `/` is immediately
followed by a word character. -/
def containsSlashCommand : List Char → Bool
  | [] => false
  | '/' :: c :: rest => isWordChar c || containsSlashCommand (c :: rest)
  | _ :: rest => containsSlashCommand rest

/-! ## Upsert helpers (`Model.objects.update_or_create` / `get_or_create`) -/

/-- `Person.objects.update_or_create(telegram_id=..., defaults=dict(is_bot,
first_name, username))`: the matching row keeps its other fields
(`privacy`, `username_x`, `bio`, `onboarded`); a new row takes the model
defaults of `models.py`.  Returns the row as saved. -/
def upsertPerson (persons : List PersonRow) (u : UserData) :
    PersonRow × List PersonRow :=
  match persons.find? (fun p => p.telegram_id = u.id) with
  | some p =>
    let p2 := { p with is_bot := u.is_bot, first_name := u.first_name,
                       username := u.username }
    (p2, persons.map fun q => if q.telegram_id = u.id then p2 else q)
  | none =>
    let p2 : PersonRow :=
      { telegram_id := u.id, is_bot := u.is_bot, first_name := u.first_name,
        username := u.username, privacy := true, username_x := "", bio := "",
        onboarded := false }
    (p2, persons ++ [p2])

/-- `Group.objects.update_or_create(telegram_id=...,
defaults=dict(display_name=title))`. -/
def upsertGroup (groups : List GroupRow) (cid : Int) (title : String) :
    List GroupRow :=
  if groups.any (fun g => g.telegram_id = cid) then
    groups.map fun g =>
      if g.telegram_id = cid then { g with display_name := title } else g
  else groups ++ [{ telegram_id := cid, display_name := title }]

/-- `GroupPerson.objects.update_or_create(group=..., person=...,
defaults=...)`.  `lastMsg = none` means `last_message_at` is not among the
defaults (left untouched on an existing row, model default `None` on a new
row); `lastMsg = some v` sets it to `v`. -/
def upsertGroupPerson (rows : List GroupPersonRow) (g pid : Int) (leftv : Bool)
    (lastMsg : Option (Option Int)) : List GroupPersonRow :=
  if rows.any (fun r => r.group = g ∧ r.person = pid) then
    rows.map fun r =>
      if r.group = g ∧ r.person = pid then
        { r with left := leftv,
                 last_message_at :=
                   match lastMsg with
                   | none => r.last_message_at
                   | some v => v }
      else r
  else
    rows ++ [{ group := g, person := pid, left := leftv,
               last_message_at := lastMsg.getD none }]

/-- `PollAnswer.objects.update_or_create(poll=..., person=...,
defaults=dict(yes=yes))`. -/
def upsertAnswer (rows : List PollAnswerRow) (pid : String) (person : Int)
    (yes : Bool) : List PollAnswerRow :=
  if rows.any (fun a => a.poll = pid ∧ a.person = person) then
    rows.map fun a =>
      if a.poll = pid ∧ a.person = person then { a with yes := yes } else a
  else rows ++ [{ poll := pid, person := person, yes := yes }]

/-- `ActivityDay.objects.get_or_create(person, group, date,
defaults=dict(message_count=1))` followed, when the row already existed, by
the atomic `update(message_count=F("message_count") + 1)`
(`views.py` lines 164-175). -/
def bumpActivity (rows : List ActivityDayRow) (pid gid d : Int) :
    List ActivityDayRow :=
  if rows.any (fun a => a.person = pid ∧ a.group = gid ∧ a.date = d) then
    rows.map fun a =>
      if a.person = pid ∧ a.group = gid ∧ a.date = d then
        { a with message_count := a.message_count + 1 }
      else a
  else rows ++ [{ person := pid, group := gid, date := d, message_count := 1 }]

/-! ## Webhook handlers (`hackabot/apps/bot/views.py`) -/

/-- `_get_or_create_person` from `views.py`: `None` user data yields no
person; otherwise upsert by telegram id. -/
def get_or_create_person (st : BotState) (user_data : Option UserData) :
    Option PersonRow × BotState :=
  match user_data with
  | none => (none, st)
  | some u =>
    let r := upsertPerson st.persons u
    (some r.1, { st with persons := r.2 })

/-- `_get_or_create_group` from `views.py`: only `group` / `supergroup`
chats produce a Group row; returns the group's telegram id. -/
def get_or_create_group (st : BotState) (chat_data : Option ChatData) :
    Option Int × BotState :=
  match chat_data with
  | none => (none, st)
  | some c =>
    if c.type = "group" ∨ c.type = "supergroup" then
      (some c.id, { st with groups := upsertGroup st.groups c.id c.title })
    else (none, st)

/-- `_handle_poll_data` from `views.py`.  `gid = some g` is the
`group=group` call from `_handle_message` (the defaults then include
`node = group.node_set.first()`); `gid = none` is the bare call from the
webhook's `poll` branch (the `node` field is left untouched on an existing
row). -/
def handle_poll_data (st : BotState) (pd : PollData) (gid : Option Int) :
    BotState :=
  let counts : Nat × Nat :=
    match pd.options with
    | a :: b :: _ => (a, b)
    | _ => (0, 0)
  let nodeDefault : Option (Option Nat) :=
    match gid with
    | some g => some ((st.nodes.find? (fun n => n.group = some g)).map (·.id))
    | none => none
  let polls :=
    if st.polls.any (fun p => p.telegram_id = pd.id) then
      st.polls.map fun p =>
        if p.telegram_id = pd.id then
          { p with question := pd.question, yes_count := counts.1,
                   no_count := counts.2,
                   node :=
                     match nodeDefault with
                     | none => p.node
                     | some v => v }
        else p
    else
      st.polls ++ [{ telegram_id := pd.id, node := nodeDefault.getD none,
                     question := pd.question, yes_count := counts.1,
                     no_count := counts.2 }]
  { st with polls := polls }

/-- `_handle_poll_answer` from `views.py`: skip when `poll_id` or the user
is missing, skip when the Poll is unknown; an empty `option_ids` deletes the
(poll, person) row (vote retracted); otherwise upsert with
`yes = (option_ids[0] == 0)`. -/
def handle_poll_answer (st : BotState) (pa : PollAnswerData) : BotState :=
  if pa.poll_id = "" then st
  else
    match pa.user with
    | none => st
    | some u =>
      if st.polls.any (fun p => p.telegram_id = pa.poll_id) then
        let r := upsertPerson st.persons u
        let st := { st with persons := r.2 }
        match pa.option_ids with
        | [] =>
          let remaining := st.answers.filter
            (fun a => ¬(a.poll = pa.poll_id ∧ a.person = r.1.telegram_id))
          { st with answers := remaining }
        | i :: _ =>
          let updated := upsertAnswer st.answers pa.poll_id r.1.telegram_id (i == 0)
          { st with answers := updated }
      else st

/-- The welcome text `_onboard_new_member` sends (falling back to "there"
when the first name is empty). -/
def welcome_message (p : PersonRow) : String :=
  let name := if p.first_name = "" then "there" else p.first_name
  "👋 Welcome [" ++ name ++ "](tg://user?id=" ++ toString p.telegram_id ++
    ")! Introduce yourself — what are you building? (DM me to set up your profile)"

/-- `_onboard_new_member` from `views.py`: skip bots and groups without a
linked Node; otherwise send the welcome and set `onboarded = True`.  The
`onboarded` flag is not consulted before sending. -/
def onboard_new_member (st : BotState) (p : PersonRow) (gid : Int) : BotState :=
  if p.is_bot then st
  else if ¬ st.nodes.any (fun n => n.group = some gid) then st
  else
    let st := { st with sent := st.sent ++ [(gid, welcome_message p)] }
    { st with persons := st.persons.map fun q =>
        if q.telegram_id = p.telegram_id then { q with onboarded := true } else q }

/-- `_handle_chat_member` from `views.py`: upsert group and person, set the
membership's `left` from the new status, and onboard on a join. -/
def handle_chat_member (st0 : BotState) (cm : ChatMemberData) : BotState :=
  match get_or_create_group st0 cm.chat with
  | (none, st) => st
  | (some gid, st) =>
    match cm.new_chat_member.user with
    | none => st
    | some u =>
      let r := upsertPerson st.persons u
      let st := { st with persons := r.2 }
      let leftv : Bool :=
        decide (cm.new_chat_member.status = "left" ∨
          cm.new_chat_member.status = "kicked")
      let st := { st with groupPersons :=
          upsertGroupPerson st.groupPersons gid r.1.telegram_id leftv none }
      if leftv then st else onboard_new_member st r.1 gid

/-- `_handle_my_chat_member` from `views.py`: just upsert the group. -/
def handle_my_chat_member (st : BotState) (cm : ChatMemberData) : BotState :=
  (get_or_create_group st cm.chat).2

/-- `_handle_callback_query` from `views.py`: with an id and a chat id
present, every payload is acknowledged (`answer_callback_query`) and nothing
else happens. -/
def handle_callback_query (st : BotState) (cq : CallbackQueryData) : BotState :=
  if cq.id = "" then st
  else
    match cq.chat_id with
    | none => st
    | some _ => { st with acks := st.acks ++ [cq.id] }

/-! ## Direct-message command router (`_handle_dm` and friends) -/

/-- `BIO_MAX_LENGTH = 140` from `views.py`. -/
def BIO_MAX_LENGTH : Nat := 140

/-- A node's display name: `f"{emoji} {name}"` when it has an emoji. -/
def nodeDisplayName (n : NodeRef) : String :=
  if n.emoji ≠ "" then n.emoji ++ " " ++ n.name else n.name

/-- The queryset `Node.objects.filter(group__groupperson__person=person,
group__groupperson__left=False).distinct()` used by `_handle_dm`,
`_handle_help_command` and `_handle_people_command`. -/
def member_nodes (st : BotState) (pid : Int) : List NodeRef :=
  st.nodes.filter fun n =>
    match n.group with
    | none => false
    | some g =>
      st.groupPersons.any fun gp =>
        gp.group = g ∧ gp.person = pid ∧ gp.left = false

/-- The privacy nudge appended by `/x` and `/bio` when privacy mode is on. -/
def privacy_nudge : String :=
  "\n\n💡 Your privacy mode is ON, so you won\x27t appear on " ++
    "hacka.network. Use `/privacy off` to be listed!"

/-- `_handle_help_command` from `views.py`: build and send the help text. -/
def handle_help_command (st : BotState) (chat_id : Int) (person : PersonRow) :
    BotState :=
  let nodes := member_nodes st person.telegram_id
  let base : List String :=
    ["👋 *Welcome to Hackabot!*", "",
     "I\x27m the friendly bot for the Hacka\\* network — a global community " ++
       "of hackers, makers, and builders.",
     "", "🔒 *Privacy:* I never store any of your group messages.", "",
     "🌐 For more info, visit https://hacka.network", ""]
  let nodeLines : List String :=
    if nodes.isEmpty then ["📍 You\x27re not in any Hacka\\* nodes yet!"]
    else "📍 *Your nodes:*" :: nodes.map (fun n => "  • " ++ nodeDisplayName n)
  let profileLines : List String :=
    ["", "👤 *Your profile:*"] ++
    (if person.username ≠ "" then
      ["  • Telegram: @" ++ person.username.replace "_" "\\_"] else []) ++
    (if person.username_x ≠ "" then
      ["  • X/Twitter: @" ++ person.username_x.replace "_" "\\_"] else []) ++
    (if person.bio ≠ "" then
      ["  • Bio: _" ++ person.bio.replace "_" "\\_" ++ "_"] else [])
  let privacyLines : List String :=
    ["", "🛡️ *Privacy mode:* " ++ (if person.privacy then "ON 🔒" else "OFF 🔓"),
     if person.privacy then "  You are hidden from hacka.network"
     else "  You are listed on hacka.network for your nodes"]
  let commandLines : List String :=
    ["", "*Commands:*",
     "  /bio your text — set your bio",
     "  /bio unset — clear your bio",
     "  /x @username — set your X/Twitter username",
     "  /privacy on — turn privacy mode ON",
     "  /privacy off — turn privacy mode OFF",
     "  /people — list people in your nodes"]
  let message := String.intercalate "\n"
    (base ++ nodeLines ++ profileLines ++ privacyLines ++ commandLines)
  { st with sent := st.sent ++ [(chat_id, message)] }

/-- `_handle_x_command` from `views.py`: strip a leading `@`, reject empty,
HTML characters, or non-word characters, else store `username_x`. -/
def handle_x_command (st : BotState) (chat_id : Int) (person : PersonRow)
    (text : String) : BotState :=
  match pySplitOnce text with
  | _ :: u0 :: _ =>
    let username := pyStrip u0
    let username :=
      if pyStartsWith username "@" then String.mk (username.data.drop 1)
      else username
    if username = "" then
      { st with sent := st.sent ++ [(chat_id,
          "❌ Please provide a valid username.\n\nExample: `/x @yourname`")] }
    else if pyContains username '<' || pyContains username '>' then
      { st with sent := st.sent ++ [(chat_id,
          "❌ Username cannot contain HTML characters.")] }
    else if ¬ username.data.all isWordChar then
      { st with sent := st.sent ++ [(chat_id,
          "❌ Please provide a valid username.\n\nExample: `/x @yourname`")] }
    else
      let persons := st.persons.map fun q =>
        if q.telegram_id = person.telegram_id then
          { person with username_x := username }
        else q
      let message := "✅ Your X/Twitter username has been set to @" ++
        username.replace "_" "\\_"
      let message := if person.privacy then message ++ privacy_nudge else message
      { st with persons := persons, sent := st.sent ++ [(chat_id, message)] }
  | _ =>
    { st with sent := st.sent ++ [(chat_id,
        "❌ Please provide your X/Twitter username.\n\nExample: `/x @yourname`")] }

/-- `_handle_privacy_command` from `views.py`: `on`/`off` toggles the flag,
anything else reports the current status. -/
def handle_privacy_command (st : BotState) (chat_id : Int) (person : PersonRow)
    (text : String) : BotState :=
  let parts := pySplitAll (pyLower text)
  let statusReply :=
    let current := if person.privacy then "ON 🔒" else "OFF 🔓"
    let explanation :=
      if person.privacy then "You are hidden from hacka.network"
      else "You are listed on hacka.network for your nodes"
    "🛡️ Your privacy mode is currently *" ++ current ++ "*\n" ++ explanation ++
      "\n\nUse `/privacy on` or `/privacy off` to change it."
  match parts with
  | _ :: arg :: _ =>
    if arg = "on" ∨ arg = "off" then
      let newv : Bool := arg = "on"
      let persons := st.persons.map fun q =>
        if q.telegram_id = person.telegram_id then { person with privacy := newv }
        else q
      let explanation :=
        if newv then "You are now hidden from hacka.network"
        else "You are now listed on hacka.network for your nodes"
      let status := if newv then "ON 🔒" else "OFF 🔓"
      { st with persons := persons, sent := st.sent ++ [(chat_id,
          "✅ Privacy mode is now *" ++ status ++ "*\n" ++ explanation)] }
    else { st with sent := st.sent ++ [(chat_id, statusReply)] }
  | _ => { st with sent := st.sent ++ [(chat_id, statusReply)] }

/-- The lines `_handle_people_command` prints for one listed person. -/
def person_lines (p : PersonRow) : List String :=
  let name := if p.first_name = "" then "Unknown" else p.first_name
  let entry :=
    if p.username_x ≠ "" then
      "  • " ++ name ++ " [@" ++ p.username_x ++ "](https://x.com/" ++
        p.username_x ++ ")"
    else "  • " ++ name
  entry :: (if p.bio ≠ "" then ["    _" ++ p.bio ++ "_"] else [])

/-- `_handle_people_command` from `views.py`: for each of the caller's
nodes, list the public (privacy off, named) members of its group, ordered by
first name. -/
def handle_people_command (st : BotState) (chat_id : Int) (person : PersonRow) :
    BotState :=
  let nodes := member_nodes st person.telegram_id
  if nodes.isEmpty then
    { st with sent := st.sent ++ [(chat_id,
        "📍 You\x27re not in any Hacka\\* nodes yet!")] }
  else
    let nodeBlock (n : NodeRef) : List String :=
      ("*" ++ nodeDisplayName n ++ "*") ::
      (match n.group with
       | none => ["  _No group linked_", ""]
       | some g =>
         let people := (st.persons.filter fun p =>
             p.privacy = false ∧ (p.first_name ≠ "" ∨ p.username_x ≠ "") ∧
             st.groupPersons.any fun gp =>
               gp.group = g ∧ gp.person = p.telegram_id ∧ gp.left = false)
         let people := people.mergeSort
           (fun a b => decide (a.first_name ≤ b.first_name))
         if people.isEmpty then ["  _No public profiles yet_", ""]
         else (people.map person_lines).flatten ++ [""])
    let lines := ["👥 *People in your nodes:*", ""] ++
      (nodes.map nodeBlock).flatten ++
      ["_Only showing people with privacy mode OFF_"]
    { st with sent := st.sent ++ [(chat_id, String.intercalate "\n" lines)] }

/-- The too-long reply of `_handle_bio_command`, reporting the actual and
the maximum length. -/
def bio_too_long_message (n : Nat) : String :=
  "❌ Bio is too long (" ++ toString n ++ " characters).\n\nMaximum length is " ++
    toString BIO_MAX_LENGTH ++ " characters."

/-- `_handle_bio_command` from `views.py`, acting on the person row: the
external `html.unescape` collaborator is passed in as `unescape`.  Returns
the person row after the command and the single reply that is sent.  Check
order follows the source: missing argument, the `unset` keyword, length,
HTML angle brackets, embedded slash-commands, then store the unescaped
text. -/
def handle_bio_command (unescape : String → String) (person : PersonRow)
    (text : String) : PersonRow × String :=
  match pySplitOnce text with
  | _ :: arg :: _ =>
    let bio_text := pyStrip arg
    if pyLower bio_text = "unset" then
      ({ person with bio := "" }, "✅ Your bio has been cleared.")
    else if bio_text.length > BIO_MAX_LENGTH then
      (person, bio_too_long_message bio_text.length)
    else if pyContains bio_text '<' || pyContains bio_text '>' then
      (person, "❌ Bio cannot contain HTML tags.")
    else if containsSlashCommand bio_text.data then
      (person, "❌ Bio cannot contain Telegram commands (e.g. /something).")
    else
      let bio_text := unescape bio_text
      let message := "✅ Your bio has been set to:\n\n_" ++ bio_text ++ "_"
      let message := if person.privacy then message ++ privacy_nudge else message
      ({ person with bio := bio_text }, message)
  | _ =>
    let current := if person.bio ≠ "" then "_" ++ person.bio ++ "_" else "not set"
    (person, "📝 Your bio is currently: " ++ current ++
      "\n\nUse `/bio your text` to set it, or `/bio unset` to clear it.")

/-- `_handle_bio_command` as a state transition: save the person and send
the reply. -/
def handle_bio_command_st (unescape : String → String) (st : BotState)
    (chat_id : Int) (person : PersonRow) (text : String) : BotState :=
  let r := handle_bio_command unescape person text
  let persons := st.persons.map fun q =>
    if q.telegram_id = person.telegram_id then r.1 else q
  { st with persons := persons, sent := st.sent ++ [(chat_id, r.2)] }

/-- `_handle_dm` from `views.py`: private chats only, upsert the sender,
short-circuit non-members to a join prompt, then dispatch on the command
text. -/
def handle_dm (unescape : String → String) (st0 : BotState) (m : MessageData) :
    BotState :=
  match m.chat with
  | none => st0
  | some chat =>
    if chat.type ≠ "private" then st0
    else
      match m.from_user with
      | none => st0
      | some u =>
        let r := upsertPerson st0.persons u
        let st := { st0 with persons := r.2 }
        let person := r.1
        let text := pyStrip m.text
        let chat_id := chat.id
        let is_member_of_any_node := st.nodes.any fun n =>
          match n.group with
          | none => false
          | some g =>
            st.groupPersons.any fun gp =>
              gp.group = g ∧ gp.person = person.telegram_id ∧ gp.left = false
        if ¬ is_member_of_any_node then
          { st with sent := st.sent ++ [(chat_id,
              "👋 Hey! I\x27m the bot for the Hacka* network.\n\n" ++
              "To use me, you need to be a member of at least one Hacka* node.\n\n" ++
              "Head to https://hacka.network to find and apply to your local one!")] }
        else if pyStartsWith text "/help" || pyStartsWith text "/start" then
          handle_help_command st chat_id person
        else if pyStartsWith text "/x " || text == "/x" then
          handle_x_command st chat_id person text
        else if pyStartsWith text "/privacy" then
          handle_privacy_command st chat_id person text
        else if pyStartsWith text "/bio" then
          handle_bio_command_st unescape st chat_id person text
        else if pyStartsWith text "/people" then
          handle_people_command st chat_id person
        else
          { st with sent := st.sent ++ [(chat_id,
              "🤔 I don\x27t recognise that command.\n\nType /help to see what I can do!")] }

/-! ## Group message handling (`_handle_message`) -/

/-- `_handle_message` from `views.py`: upsert the group, process join and
leave service entries, then — for a message with text — refresh the
sender's membership (setting `last_message_at`) and bump the day's activity
bucket, then process a poll carried in the message.  No `Message` row is
written anywhere in this function, and `m.message_id` is never read.  The
final photo-upload branch (guarded by `chat_id == PHOTO_UPLOAD_CHAT_ID`)
only reads and writes `MeetupPhoto` rows and photo chatter, which are
outside this model. -/
def handle_message (st0 : BotState) (m : MessageData) : BotState :=
  match get_or_create_group st0 m.chat with
  | (none, st) => st
  | (some gid, st) =>
    let st := m.new_chat_members.foldl
      (fun acc u =>
        let r := upsertPerson acc.persons u
        { acc with persons := r.2,
                   groupPersons :=
                     upsertGroupPerson acc.groupPersons gid r.1.telegram_id
                       false none })
      st
    let st :=
      match m.left_chat_member with
      | none => st
      | some u =>
        let r := upsertPerson st.persons u
        { st with persons := r.2,
                  groupPersons :=
                    upsertGroupPerson st.groupPersons gid r.1.telegram_id
                      true none }
    let st :=
      if m.text ≠ "" then
        match m.from_user with
        | none => st
        | some u =>
          let r := upsertPerson st.persons u
          let message_date := m.date / 86400
          { st with persons := r.2,
                    groupPersons :=
                      upsertGroupPerson st.groupPersons gid r.1.telegram_id
                        false (some (some m.date)),
                    activity :=
                      bumpActivity st.activity r.1.telegram_id gid message_date }
      else st
    match m.poll with
    | none => st
    | some pd => handle_poll_data st pd (some gid)

/-! ## Webhook entry point (`telegram_webhook`) -/

/-- A parsed webhook envelope: the top-level keys `telegram_webhook`
dispatches on.  Several keys may be present at once; keys the handler does
not know (e.g. `edited_message`, `channel_post`) have no field because the
function never reads them. -/
structure Update where
  message : Option MessageData
  poll : Option PollData
  poll_answer : Option PollAnswerData
  chat_member : Option ChatMemberData
  my_chat_member : Option ChatMemberData
  callback_query : Option CallbackQueryData
  deriving Repr, DecidableEq

/-- The HTTP outcome of one webhook request: 403 before the body is looked
at, 400 on an unparseable body, or 200 with `{"ok": true}`. -/
inductive WebhookResult where
  | forbidden
  | badRequest
  | ok
  deriving Repr, DecidableEq

/-- `verify_webhook_secret` from `telegram.py`:
`hmac.compare_digest(header_value, TELEGRAM_WEBHOOK_SECRET)`, a
constant-time equality check; a missing header reads as `""`. -/
def verify_webhook_secret (header secret : String) : Bool :=
  header == secret

/-- `telegram_webhook` from `views.py`.  `body = none` models a request
body that is not valid JSON.  A `message` whose chat type is `private` goes
to `_handle_dm`, any other `message` to `_handle_message`; then each further
top-level key present runs its handler; the response is always the success
acknowledgement once the secret and the body were accepted. -/
def telegram_webhook (unescape : String → String) (secret header : String)
    (body : Option Update) (st : BotState) : WebhookResult × BotState :=
  if ¬ verify_webhook_secret header secret then (WebhookResult.forbidden, st)
  else
    match body with
    | none => (WebhookResult.badRequest, st)
    | some data =>
      let st :=
        match data.message with
        | none => st
        | some m =>
          if ((m.chat.map (fun c => c.type)).getD "") = "private" then
            handle_dm unescape st m
          else handle_message st m
      let st :=
        match data.poll with
        | none => st
        | some pd => handle_poll_data st pd none
      let st :=
        match data.poll_answer with
        | none => st
        | some pa => handle_poll_answer st pa
      let st :=
        match data.chat_member with
        | none => st
        | some cm => handle_chat_member st cm
      let st :=
        match data.my_chat_member with
        | none => st
        | some cm => handle_my_chat_member st cm
      let st :=
        match data.callback_query with
        | none => st
        | some cq => handle_callback_query st cq
      (WebhookResult.ok, st)

/-- C8: webhook boundary behaviour.  A wrong (or missing, i.e. `""`) secret
header is rejected with 403 whatever the body — in particular before any
parse outcome matters; with a valid secret an unparseable body yields 400;
every valid-secret, parsed envelope is acknowledged with 200 `ok`; and an
envelope with no actionable top-level key changes no state. -/
theorem webhook_boundary (unescape : String → String) (secret header : String)
    (body : Option Update) (st : BotState) :
    (header ≠ secret →
      telegram_webhook unescape secret header body st = (WebhookResult.forbidden, st)) ∧
    (header = secret → body = none →
      telegram_webhook unescape secret header body st = (WebhookResult.badRequest, st)) ∧
    (header = secret → ∀ u, body = some u →
      (telegram_webhook unescape secret header body st).1 = WebhookResult.ok) ∧
    (header = secret →
      telegram_webhook unescape secret header
        (some ⟨none, none, none, none, none, none⟩) st = (WebhookResult.ok, st)) := by
  refine ⟨?_, ?_, ?_, ?_⟩
  · intro h; simp [telegram_webhook, verify_webhook_secret, h]
  · intro h hb; subst hb; simp [telegram_webhook, verify_webhook_secret, h]
  · intro h u hb; subst hb; simp [telegram_webhook, verify_webhook_secret, h]
  · intro h; simp [telegram_webhook, verify_webhook_secret, h]

/-- Witness for C8 at concrete inputs: a wrong secret is rejected with 403,
a valid secret with an unparseable body yields 400, and a valid secret with
an envelope containing no actionable key yields 200 and leaves the (empty)
state unchanged. -/
theorem webhook_boundary_witness :
    telegram_webhook id "hook-secret" "wrong" none
        ⟨[], [], [], [], [], [], [], [], [], []⟩ =
      (WebhookResult.forbidden, ⟨[], [], [], [], [], [], [], [], [], []⟩) ∧
    telegram_webhook id "hook-secret" "hook-secret" none
        ⟨[], [], [], [], [], [], [], [], [], []⟩ =
      (WebhookResult.badRequest, ⟨[], [], [], [], [], [], [], [], [], []⟩) ∧
    telegram_webhook id "hook-secret" "hook-secret"
        (some ⟨none, none, none, none, none, none⟩)
        ⟨[], [], [], [], [], [], [], [], [], []⟩ =
      (WebhookResult.ok, ⟨[], [], [], [], [], [], [], [], [], []⟩) := by
  refine ⟨?_, ?_, ?_⟩
  · exact (webhook_boundary id "hook-secret" "wrong" none _).1 (by decide)
  · exact (webhook_boundary id "hook-secret" "hook-secret" none _).2.1 rfl rfl
  · exact (webhook_boundary id "hook-secret" "hook-secret"
      (some ⟨none, none, none, none, none, none⟩)
      ⟨[], [], [], [], [], [], [], [], [], []⟩).2.2.2 rfl

/-! ## Poll-answer uniqueness (C5) -/

/-- The uniqueness invariant of `unique_together = ["poll", "person"]` on
`PollAnswer`: no two rows share a (poll, person) pair. -/
def AnswersUnique (rows : List PollAnswerRow) : Prop :=
  rows.Pairwise (fun a b => ¬(a.poll = b.poll ∧ a.person = b.person))

/-- The rows a `PollAnswer.objects.filter(poll=..., person=...)` query
returns. -/
def answersFor (rows : List PollAnswerRow) (pid : String) (uid : Int) :
    List PollAnswerRow :=
  rows.filter (fun a => a.poll = pid ∧ a.person = uid)

/-- The row `_get_or_create_person` returns always carries the envelope's
user id. -/
theorem upsertPerson_fst_id (ps : List PersonRow) (u : UserData) :
    (upsertPerson ps u).1.telegram_id = u.id := by
  unfold upsertPerson
  cases h : ps.find? (fun p => p.telegram_id = u.id) with
  | none => rfl
  | some p =>
    have hp := List.find?_some h
    simp only [decide_eq_true_eq] at hp
    simp [hp]

/-- The row `_get_or_create_person` returns carries the envelope's bot
flag. -/
theorem upsertPerson_fst_is_bot (ps : List PersonRow) (u : UserData) :
    (upsertPerson ps u).1.is_bot = u.is_bot := by
  unfold upsertPerson
  cases h : ps.find? (fun p => p.telegram_id = u.id) <;> rfl

/-- The upsert map changes only the `yes` field, never the key fields. -/
theorem upsert_map_poll (pid : String) (uid : Int) (yes : Bool)
    (x : PollAnswerRow) :
    ((if x.poll = pid ∧ x.person = uid then { x with yes := yes } else x) :
        PollAnswerRow).poll = x.poll := by
  split <;> rfl

/-- The upsert map changes only the `yes` field, never the key fields. -/
theorem upsert_map_person (pid : String) (uid : Int) (yes : Bool)
    (x : PollAnswerRow) :
    ((if x.poll = pid ∧ x.person = uid then { x with yes := yes } else x) :
        PollAnswerRow).person = x.person := by
  split <;> rfl

/-- `update_or_create` on PollAnswer preserves key uniqueness. -/
theorem answersUnique_upsert (rows : List PollAnswerRow) (pid : String)
    (uid : Int) (yes : Bool) (h : AnswersUnique rows) :
    AnswersUnique (upsertAnswer rows pid uid yes) := by
  unfold upsertAnswer
  split_ifs with hany
  · rw [AnswersUnique, List.pairwise_map]
    refine h.imp ?_
    intro a b hab
    rw [upsert_map_poll, upsert_map_person, upsert_map_poll, upsert_map_person]
    exact hab
  · have hnone : ∀ x ∈ rows, ¬(x.poll = pid ∧ x.person = uid) := by
      intro x hx hk
      exact hany (by
        simp only [List.any_eq_true, decide_eq_true_eq]
        exact ⟨x, hx, hk⟩)
    rw [AnswersUnique, List.pairwise_append]
    refine ⟨h, List.pairwise_singleton _ _, ?_⟩
    intro a ha b hb
    simp only [List.mem_singleton] at hb
    subst hb
    exact fun hk => hnone a ha hk

/-- Deleting rows preserves key uniqueness. -/
theorem answersUnique_filter (rows : List PollAnswerRow)
    (p : PollAnswerRow → Bool) (h : AnswersUnique rows) :
    AnswersUnique (rows.filter p) :=
  List.Pairwise.sublist (List.filter_sublist rows) h

/-- `_handle_poll_answer` preserves key uniqueness on every input. -/
theorem answersUnique_handle (st : BotState) (pa : PollAnswerData)
    (h : AnswersUnique st.answers) :
    AnswersUnique ((handle_poll_answer st pa).answers) := by
  by_cases h1 : pa.poll_id = ""
  · simpa [handle_poll_answer, h1] using h
  · cases hu : pa.user with
    | none => simpa [handle_poll_answer, h1, hu] using h
    | some u =>
      by_cases h2 : (st.polls.any fun p => p.telegram_id = pa.poll_id) = true
      · cases ho : pa.option_ids with
        | nil =>
          simp only [handle_poll_answer, h1, hu, h2, ho, if_neg, if_pos]
          exact answersUnique_filter _ _ h
        | cons i rest =>
          simp only [handle_poll_answer, h1, hu, h2, ho, if_neg, if_pos]
          exact answersUnique_upsert _ _ _ _ h
      · simpa [handle_poll_answer, h1, hu, h2] using h

/-- A whole sequence of poll-answer events preserves key uniqueness. -/
theorem answersUnique_foldl (st : BotState) (evs : List PollAnswerData)
    (h : AnswersUnique st.answers) :
    AnswersUnique ((evs.foldl handle_poll_answer st).answers) := by
  induction evs generalizing st with
  | nil => exact h
  | cons pa rest ih => exact ih _ (answersUnique_handle st pa h)

/-- `_handle_poll_answer` never touches the Poll table. -/
theorem handle_poll_answer_polls (st : BotState) (pa : PollAnswerData) :
    (handle_poll_answer st pa).polls = st.polls := by
  by_cases h1 : pa.poll_id = ""
  · simp [handle_poll_answer, h1]
  · cases hu : pa.user with
    | none => simp [handle_poll_answer, h1, hu]
    | some u =>
      by_cases h2 : (st.polls.any fun p => p.telegram_id = pa.poll_id) = true
      · cases ho : pa.option_ids <;> simp [handle_poll_answer, h1, hu, h2, ho]
      · simp [handle_poll_answer, h1, hu, h2]

/-- Deleting a pair's rows leaves no row for that pair. -/
theorem answersFor_erase (rows : List PollAnswerRow) (pid : String) (uid : Int) :
    answersFor (rows.filter fun a => ¬(a.poll = pid ∧ a.person = uid)) pid uid = [] := by
  rw [answersFor, List.filter_eq_nil_iff]
  intro a ha
  rw [List.mem_filter] at ha
  have h2 := ha.2
  simp at h2 ⊢
  tauto

/-- Helper: if no element of `rest` matches the key, the upsert map leaves
no matching row in it. -/
theorem answersFor_map_of_none (rest : List PollAnswerRow) (pid : String)
    (uid : Int) (yes : Bool)
    (hnone : ∀ x ∈ rest, ¬(x.poll = pid ∧ x.person = uid)) :
    (rest.map fun a =>
        if a.poll = pid ∧ a.person = uid then { a with yes := yes } else a).filter
      (fun a => a.poll = pid ∧ a.person = uid) = [] := by
  rw [List.filter_eq_nil_iff]
  intro a ha
  rw [List.mem_map] at ha
  obtain ⟨x, hx, rfl⟩ := ha
  have := hnone x hx
  simp [this]

/-- Under the uniqueness invariant, an upsert leaves exactly the upserted
row for its (poll, person) pair. -/
theorem answersFor_upsert (rows : List PollAnswerRow) (pid : String)
    (uid : Int) (yes : Bool) (h : AnswersUnique rows) :
    answersFor (upsertAnswer rows pid uid yes) pid uid =
      [{ poll := pid, person := uid, yes := yes }] := by
  unfold upsertAnswer
  split_ifs with hany
  · rw [answersFor]
    induction rows with
    | nil => simp at hany
    | cons a rest ih =>
      have hpair := List.pairwise_cons.mp h
      by_cases hk : a.poll = pid ∧ a.person = uid
      · have hrest : ∀ x ∈ rest, ¬(x.poll = pid ∧ x.person = uid) := by
          intro x hx
          have := hpair.1 x hx
          rw [hk.1, hk.2] at this
          tauto
        have hfa : ((if a.poll = pid ∧ a.person = uid then { a with yes := yes }
            else a) : PollAnswerRow) = ⟨pid, uid, yes⟩ := by
          rw [if_pos hk]
          cases a
          simp only at hk
          simp [hk.1, hk.2]
        rw [List.map_cons, hfa, List.filter_cons_of_pos (by simp)]
        rw [answersFor_map_of_none rest pid uid yes hrest]
      · have hfa : ((if a.poll = pid ∧ a.person = uid then { a with yes := yes }
            else a) : PollAnswerRow) = a := if_neg hk
        rw [List.map_cons, hfa, List.filter_cons_of_neg (by simpa using hk)]
        have hany2 : rest.any (fun x => x.poll = pid ∧ x.person = uid) = true := by
          simp only [List.any_cons, Bool.or_eq_true] at hany
          rcases hany with h1 | h2
          · exact absurd (by simpa using h1) hk
          · exact h2
        exact ih hpair.2 hany2
  · rw [answersFor, List.filter_append]
    have hz : rows.filter (fun a => a.poll = pid ∧ a.person = uid) = [] := by
      rw [List.filter_eq_nil_iff]
      intro a ha hcontra
      refine hany ?_
      simp only [List.any_eq_true, decide_eq_true_eq]
      exact ⟨a, ha, by simpa using hcontra⟩
    rw [hz]
    simp

/-- On a vote event for a known poll, `_handle_poll_answer` upserts the
(poll, person) row with `yes = (option_ids[0] == 0)`. -/
theorem handle_poll_answer_vote (st : BotState) (u : UserData) (pid : String)
    (i : Nat) (rest : List Nat) (hpid : pid ≠ "")
    (hpoll : (st.polls.any fun p => p.telegram_id = pid) = true) :
    (handle_poll_answer st ⟨pid, some u, i :: rest⟩).answers =
      upsertAnswer st.answers pid u.id (i == 0) := by
  simp [handle_poll_answer, hpid, hpoll, upsertPerson_fst_id]

/-- On a retraction event (empty option list) for a known poll,
`_handle_poll_answer` deletes the (poll, person) rows. -/
theorem handle_poll_answer_retract (st : BotState) (u : UserData) (pid : String)
    (hpid : pid ≠ "")
    (hpoll : (st.polls.any fun p => p.telegram_id = pid) = true) :
    (handle_poll_answer st ⟨pid, some u, []⟩).answers =
      st.answers.filter (fun a => ¬(a.poll = pid ∧ a.person = u.id)) := by
  simp [handle_poll_answer, hpid, hpoll, upsertPerson_fst_id]

/-- C5: after any sequence of poll_answer events the PollAnswer table keeps
at most one row per (poll, person); a yes vote followed by an
empty-option-id retraction for the same known poll leaves zero rows for the
pair; and a yes vote followed by a no vote leaves exactly one row with
`yes = false`. -/
theorem poll_answer_lifecycle :
    (∀ (st : BotState) (evs : List PollAnswerData), AnswersUnique st.answers →
      AnswersUnique ((evs.foldl handle_poll_answer st).answers)) ∧
    (∀ (st : BotState) (pid : String) (u : UserData), pid ≠ "" →
      (st.polls.any fun p => p.telegram_id = pid) = true →
      answersFor ((handle_poll_answer
          (handle_poll_answer st ⟨pid, some u, [0]⟩)
          ⟨pid, some u, []⟩).answers) pid u.id = []) ∧
    (∀ (st : BotState) (pid : String) (u : UserData), AnswersUnique st.answers →
      pid ≠ "" → (st.polls.any fun p => p.telegram_id = pid) = true →
      answersFor ((handle_poll_answer
          (handle_poll_answer st ⟨pid, some u, [0]⟩)
          ⟨pid, some u, [1]⟩).answers) pid u.id =
        [{ poll := pid, person := u.id, yes := false }]) := by
  refine ⟨fun st evs h => answersUnique_foldl st evs h, ?_, ?_⟩
  · intro st pid u hpid hpoll
    have hpoll1 : ((handle_poll_answer st ⟨pid, some u, [0]⟩).polls.any
        fun p => p.telegram_id = pid) = true := by
      rw [handle_poll_answer_polls]
      exact hpoll
    rw [handle_poll_answer_retract _ u pid hpid hpoll1]
    exact answersFor_erase _ pid u.id
  · intro st pid u hu hpid hpoll
    have hpoll1 : ((handle_poll_answer st ⟨pid, some u, [0]⟩).polls.any
        fun p => p.telegram_id = pid) = true := by
      rw [handle_poll_answer_polls]
      exact hpoll
    rw [handle_poll_answer_vote _ u pid 1 [] hpid hpoll1,
        handle_poll_answer_vote st u pid 0 [] hpid hpoll]
    have hu1 : AnswersUnique (upsertAnswer st.answers pid u.id (0 == 0)) :=
      answersUnique_upsert _ _ _ _ hu
    simpa using answersFor_upsert
      (upsertAnswer st.answers pid u.id (0 == 0)) pid u.id (1 == 0) hu1

/-- Witness for C5: in a database knowing poll `"p1"`, a yes vote by user 7
followed by a retraction leaves no row for the pair, and a yes vote
followed by a no vote leaves exactly the single row `yes = false`. -/
theorem poll_answer_lifecycle_witness :
    answersFor ((handle_poll_answer
        (handle_poll_answer
          ⟨[], [], [], [], [⟨"p1", none, "q", 0, 0⟩], [], [], [], [], []⟩
          ⟨"p1", some ⟨7, false, "Alice", "alice"⟩, [0]⟩)
        ⟨"p1", some ⟨7, false, "Alice", "alice"⟩, []⟩).answers) "p1" 7 = [] ∧
    answersFor ((handle_poll_answer
        (handle_poll_answer
          ⟨[], [], [], [], [⟨"p1", none, "q", 0, 0⟩], [], [], [], [], []⟩
          ⟨"p1", some ⟨7, false, "Alice", "alice"⟩, [0]⟩)
        ⟨"p1", some ⟨7, false, "Alice", "alice"⟩, [1]⟩).answers) "p1" 7 =
      [⟨"p1", 7, false⟩] := by
  constructor
  · exact poll_answer_lifecycle.2.1
      ⟨[], [], [], [], [⟨"p1", none, "q", 0, 0⟩], [], [], [], [], []⟩
      "p1" ⟨7, false, "Alice", "alice"⟩ (by decide) (by decide)
  · exact poll_answer_lifecycle.2.2
      ⟨[], [], [], [], [⟨"p1", none, "q", 0, 0⟩], [], [], [], [], []⟩
      "p1" ⟨7, false, "Alice", "alice"⟩ List.Pairwise.nil (by decide) (by decide)

/-! ## Onboarding on chat_member joins (C6) -/

/-- C6 (amended): on a chat_member join event (status not left/kicked) for a
group with a linked Node where the person is not a bot, a welcome side
effect is sent and the person's `onboarded` flag is set to `True`.  The
`onboarded` flag is not consulted before sending — the welcome goes out
regardless of the person's current `onboarded` value, so redelivering the
same join event sends another welcome. -/
theorem chat_member_join_onboards (st : BotState) (cm : ChatMemberData)
    (c : ChatData) (u : UserData)
    (hchat : cm.chat = some c)
    (htype : c.type = "group" ∨ c.type = "supergroup")
    (huser : cm.new_chat_member.user = some u)
    (hstat1 : cm.new_chat_member.status ≠ "left")
    (hstat2 : cm.new_chat_member.status ≠ "kicked")
    (hbot : u.is_bot = false)
    (hnode : (st.nodes.any fun n => n.group = some c.id) = true) :
    (handle_chat_member st cm).sent =
      st.sent ++ [(c.id, welcome_message (upsertPerson st.persons u).1)] ∧
    ∀ q ∈ (handle_chat_member st cm).persons,
      q.telegram_id = u.id → q.onboarded = true := by
  have hleft : (decide (cm.new_chat_member.status = "left" ∨
      cm.new_chat_member.status = "kicked")) = false := by
    simp [hstat1, hstat2]
  have hexp : handle_chat_member st cm =
      { st with
        groups := upsertGroup st.groups c.id c.title,
        persons := (upsertPerson st.persons u).2.map (fun q =>
          if q.telegram_id = (upsertPerson st.persons u).1.telegram_id then
            { q with onboarded := true }
          else q),
        groupPersons := upsertGroupPerson st.groupPersons c.id
          (upsertPerson st.persons u).1.telegram_id false none,
        sent := st.sent ++ [(c.id, welcome_message (upsertPerson st.persons u).1)] } := by
    rw [handle_chat_member, hchat]
    show (match get_or_create_group st (some c) with
      | (none, st) => st
      | (some gid, st) => _) = _
    rw [get_or_create_group, if_pos htype]
    simp only [huser, hleft, Bool.false_eq_true, if_false]
    rw [onboard_new_member]
    rw [if_neg (by rw [upsertPerson_fst_is_bot, hbot]; exact Bool.false_ne_true)]
    rw [if_neg (by simpa using hnode)]
  constructor
  · rw [hexp]
  · rw [hexp]
    intro q hq hid
    simp only [List.mem_map] at hq
    obtain ⟨q0, hq0, rfl⟩ := hq
    rw [upsertPerson_fst_id] at *
    by_cases hq0id : q0.telegram_id = u.id
    · simp [hq0id]
    · rw [if_neg hq0id] at hid ⊢
      exact absurd hid hq0id

/-- Counterexample for C6 as stated: from a fresh database with a node
linked to group -100, delivering the identical chat_member join event for
person 12345 twice produces two welcome sends — the second delivery, for a
by-then already-onboarded person, still sends a welcome because the code
never checks the `onboarded` flag before sending. -/
theorem chat_member_onboarding_counterexample :
    ((handle_chat_member (handle_chat_member
        ⟨[], [], [], [⟨1, some (-100), "Test Node", ""⟩], [], [], [], [], [], []⟩
        ⟨some ⟨-100, "supergroup", "Test Group"⟩,
         ⟨some ⟨12345, false, "Alice", "alice"⟩, "member"⟩⟩)
        ⟨some ⟨-100, "supergroup", "Test Group"⟩,
         ⟨some ⟨12345, false, "Alice", "alice"⟩, "member"⟩⟩).sent).length = 2 := by
  decide

/-- Witness for the amended C6: a join for a non-bot, already-onboarded
person in a node-linked group still sends the welcome and keeps
`onboarded = true`. -/
theorem chat_member_join_onboards_witness :
    (handle_chat_member
        ⟨[], [⟨12345, false, "Alice", "alice", true, "", "", true⟩], [],
         [⟨1, some (-100), "Test Node", ""⟩], [], [], [], [], [], []⟩
        ⟨some ⟨-100, "supergroup", "Test Group"⟩,
         ⟨some ⟨12345, false, "Alice", "alice"⟩, "member"⟩⟩).sent.length = 1 ∧
    ∀ q ∈ (handle_chat_member
        ⟨[], [⟨12345, false, "Alice", "alice", true, "", "", true⟩], [],
         [⟨1, some (-100), "Test Node", ""⟩], [], [], [], [], [], []⟩
        ⟨some ⟨-100, "supergroup", "Test Group"⟩,
         ⟨some ⟨12345, false, "Alice", "alice"⟩, "member"⟩⟩).persons,
      q.telegram_id = 12345 → q.onboarded = true := by
  have h := chat_member_join_onboards
    ⟨[], [⟨12345, false, "Alice", "alice", true, "", "", true⟩], [],
     [⟨1, some (-100), "Test Node", ""⟩], [], [], [], [], [], []⟩
    ⟨some ⟨-100, "supergroup", "Test Group"⟩,
     ⟨some ⟨12345, false, "Alice", "alice"⟩, "member"⟩⟩
    ⟨-100, "supergroup", "Test Group"⟩ ⟨12345, false, "Alice", "alice"⟩
    rfl (Or.inr rfl) rfl (by decide) (by decide) rfl (by decide)
  exact ⟨by rw [h.1]; rfl, h.2⟩

/-! ## Message ingestion is not deduplicated (C1)

`_handle_message` never creates a `Message` row (the `Message` model is not
even imported by `views.py`) and bumps the `ActivityDay` bucket on every
delivery of a text message, with no check of the `(telegram_id, group)`
dedup key.  The repository's own tests (`test_webhooks.py`:
`test_message_deduplication`, `test_activity_not_incremented_on_duplicate`)
require one `Message` row and a count of 1 after redelivery. -/

/-- C1: delivering the identical group text-message envelope
(message_id 1, chat -1001234567890, sender 12345, date 1704067200) twice
through the webhook with a valid secret leaves zero `Message` rows and an
`ActivityDay` count of 2 — one increment per delivery, not one per unique
message. -/
theorem message_ingestion_not_deduplicated (unescape : String → String) :
    ((telegram_webhook unescape "s" "s"
        (some ⟨some ⟨1, some ⟨-1001234567890, "supergroup", "Test Group"⟩, [],
          none, some ⟨12345, false, "Alice", "alice123"⟩, 1704067200,
          "First message", none⟩, none, none, none, none, none⟩)
        (telegram_webhook unescape "s" "s"
          (some ⟨some ⟨1, some ⟨-1001234567890, "supergroup", "Test Group"⟩, [],
            none, some ⟨12345, false, "Alice", "alice123"⟩, 1704067200,
            "First message", none⟩, none, none, none, none, none⟩)
          ⟨[], [], [], [], [], [], [], [], [], []⟩).2).2).messages = [] ∧
    ((telegram_webhook unescape "s" "s"
        (some ⟨some ⟨1, some ⟨-1001234567890, "supergroup", "Test Group"⟩, [],
          none, some ⟨12345, false, "Alice", "alice123"⟩, 1704067200,
          "First message", none⟩, none, none, none, none, none⟩)
        (telegram_webhook unescape "s" "s"
          (some ⟨some ⟨1, some ⟨-1001234567890, "supergroup", "Test Group"⟩, [],
            none, some ⟨12345, false, "Alice", "alice123"⟩, 1704067200,
            "First message", none⟩, none, none, none, none, none⟩)
          ⟨[], [], [], [], [], [], [], [], [], []⟩).2).2).activity =
      [⟨12345, -1001234567890, 19723, 2⟩] := by
  exact ⟨rfl, rfl⟩

/-! ## Bio command validation (C9) -/

/-- Reduction of `_handle_bio_command` once the text splits into a command
token and an argument. -/
theorem handle_bio_command_arm (unescape : String → String) (person : PersonRow)
    (text cmd arg : String) (rest : List String)
    (hsplit : pySplitOnce text = cmd :: arg :: rest) :
    handle_bio_command unescape person text =
      (let bio_text := pyStrip arg
       if pyLower bio_text = "unset" then
         ({ person with bio := "" }, "✅ Your bio has been cleared.")
       else if bio_text.length > BIO_MAX_LENGTH then
         (person, bio_too_long_message bio_text.length)
       else if pyContains bio_text '<' || pyContains bio_text '>' then
         (person, "❌ Bio cannot contain HTML tags.")
       else if containsSlashCommand bio_text.data then
         (person, "❌ Bio cannot contain Telegram commands (e.g. /something).")
       else
         let bio_text := unescape bio_text
         let message := "✅ Your bio has been set to:\n\n_" ++ bio_text ++ "_"
         let message :=
           if person.privacy then message ++ privacy_nudge else message
         ({ person with bio := bio_text }, message)) := by
  unfold handle_bio_command
  rw [hsplit]

/-- C9: `_handle_bio_command` validation.  With the command's argument
`arg` (stripped form `b`): the literal `unset` clears the bio; an argument
longer than the 140-character maximum is rejected with a reply reporting the
actual and maximum lengths and the bio is unchanged; an argument containing
`<` or `>` is rejected with the HTML-related reply and the bio is unchanged;
an argument containing a `/word` command pattern is rejected with the
Telegram-commands reply and the bio is unchanged; an otherwise valid
argument of exactly the maximum length passes the length check and is
stored after HTML-entity unescaping. -/
theorem bio_validation (unescape : String → String) (person : PersonRow)
    (text cmd arg b : String)
    (hsplit : pySplitOnce text = [cmd, arg]) (hb : pyStrip arg = b) :
    (pyLower b = "unset" →
      (handle_bio_command unescape person text).1.bio = "" ∧
      (handle_bio_command unescape person text).2 =
        "✅ Your bio has been cleared.") ∧
    (pyLower b ≠ "unset" → b.length > BIO_MAX_LENGTH →
      (handle_bio_command unescape person text).1.bio = person.bio ∧
      (handle_bio_command unescape person text).2 =
        bio_too_long_message b.length) ∧
    (pyLower b ≠ "unset" → b.length ≤ BIO_MAX_LENGTH →
      (pyContains b '<' || pyContains b '>') = true →
      (handle_bio_command unescape person text).1.bio = person.bio ∧
      (handle_bio_command unescape person text).2 =
        "❌ Bio cannot contain HTML tags.") ∧
    (pyLower b ≠ "unset" → b.length ≤ BIO_MAX_LENGTH →
      (pyContains b '<' || pyContains b '>') = false →
      containsSlashCommand b.data = true →
      (handle_bio_command unescape person text).1.bio = person.bio ∧
      (handle_bio_command unescape person text).2 =
        "❌ Bio cannot contain Telegram commands (e.g. /something).") ∧
    (pyLower b ≠ "unset" → b.length = BIO_MAX_LENGTH →
      (pyContains b '<' || pyContains b '>') = false →
      containsSlashCommand b.data = false →
      ¬ b.length > BIO_MAX_LENGTH ∧
      (handle_bio_command unescape person text).1.bio = unescape b) := by
  have harm := handle_bio_command_arm unescape person text cmd arg [] hsplit
  rw [hb] at harm
  refine ⟨?_, ?_, ?_, ?_, ?_⟩
  · intro h1
    rw [harm]
    simp [h1]
  · intro h1 h2
    rw [harm]
    simp [h1, h2]
  · intro h1 h2 h3
    rw [harm]
    simp [h1, h3, show ¬ b.length > BIO_MAX_LENGTH from by omega]
  · intro h1 h2 h3 h4
    rw [harm]
    simp [h1, h3, h4, show ¬ b.length > BIO_MAX_LENGTH from by omega]
  · intro h1 h2 h3 h4
    refine ⟨by omega, ?_⟩
    rw [harm]
    by_cases hp : person.privacy = true <;>
      simp [h1, h3, h4, hp, show ¬ b.length > BIO_MAX_LENGTH from by omega]

set_option maxRecDepth 16000 in
/-- Witness for C9 at concrete inputs: `unset` clears the bio; a 141-char
argument is rejected reporting 141 and 140 with the bio untouched; `<`
content gets the HTML reply; a `/cmd` pattern gets the commands reply; and
an exactly-140-char argument is stored. -/
theorem bio_validation_witness :
    (handle_bio_command id ⟨12345, false, "Alice", "alice", false, "", "old", false⟩
      "/bio unset").1.bio = "" ∧
    (handle_bio_command id ⟨12345, false, "Alice", "alice", false, "", "old", false⟩
      ("/bio " ++ String.mk (List.replicate 141 'A'))).1.bio = "old" ∧
    (handle_bio_command id ⟨12345, false, "Alice", "alice", false, "", "old", false⟩
      ("/bio " ++ String.mk (List.replicate 141 'A'))).2 =
        bio_too_long_message 141 ∧
    (handle_bio_command id ⟨12345, false, "Alice", "alice", false, "", "old", false⟩
      "/bio a<b").2 = "❌ Bio cannot contain HTML tags." ∧
    (handle_bio_command id ⟨12345, false, "Alice", "alice", false, "", "old", false⟩
      "/bio see /cmd").2 =
        "❌ Bio cannot contain Telegram commands (e.g. /something)." ∧
    (handle_bio_command id ⟨12345, false, "Alice", "alice", false, "", "old", false⟩
      ("/bio " ++ String.mk (List.replicate 140 'B'))).1.bio =
        String.mk (List.replicate 140 'B') := by
  refine ⟨?_, ?_, ?_, ?_, ?_, ?_⟩
  · exact ((bio_validation id ⟨12345, false, "Alice", "alice", false, "", "old", false⟩
      "/bio unset" "/bio" "unset" "unset" (by decide) (by decide)).1 (by decide)).1
  · exact ((bio_validation id ⟨12345, false, "Alice", "alice", false, "", "old", false⟩
      ("/bio " ++ String.mk (List.replicate 141 'A')) "/bio"
      (String.mk (List.replicate 141 'A')) (String.mk (List.replicate 141 'A'))
      (by decide) (by decide)).2.1 (by decide) (by decide)).1
  · exact ((bio_validation id ⟨12345, false, "Alice", "alice", false, "", "old", false⟩
      ("/bio " ++ String.mk (List.replicate 141 'A')) "/bio"
      (String.mk (List.replicate 141 'A')) (String.mk (List.replicate 141 'A'))
      (by decide) (by decide)).2.1 (by decide) (by decide)).2
  · exact ((bio_validation id ⟨12345, false, "Alice", "alice", false, "", "old", false⟩
      "/bio a<b" "/bio" "a<b" "a<b" (by decide) (by decide)).2.2.1
      (by decide) (by decide) (by decide)).2
  · exact ((bio_validation id ⟨12345, false, "Alice", "alice", false, "", "old", false⟩
      "/bio see /cmd" "/bio" "see /cmd" "see /cmd" (by decide) (by decide)).2.2.2.1
      (by decide) (by decide) (by decide) (by decide)).2
  · exact ((bio_validation id ⟨12345, false, "Alice", "alice", false, "", "old", false⟩
      ("/bio " ++ String.mk (List.replicate 140 'B')) "/bio"
      (String.mk (List.replicate 140 'B')) (String.mk (List.replicate 140 'B'))
      (by decide) (by decide)).2.2.2.2 (by decide) (by decide) (by decide)
      (by decide)).2

/-! ## Attendance window (C7) -/

/-- Python `datetime.weekday()` (0 = Monday) of a second-scale UTC instant,
given the Monday-aligned epoch. -/
def weekdayS (t : Int) : Int := (t / 86400) % 7

/-- A Poll row as the attendance queries read it: its unique id, its node,
and its `created` timestamp (seconds, `auto_now_add`). -/
structure PollC where
  telegram_id : String
  node : Option Nat
  created : Int
  deriving Repr, DecidableEq

/-- `_get_attending_window` from `views.py`: this week's Monday 07:00 UTC
(last week's when `now` has not reached it yet), unless `now` is at or past
the corresponding Friday 07:00 UTC, in which case there is no window. -/
def get_attending_window (now : Int) : Option Int :=
  let days_since_monday := weekdayS now
  let monday_7am := now - now % 86400 + 7 * 3600 - days_since_monday * 86400
  let monday_7am :=
    if now < monday_7am then monday_7am - 7 * 86400 else monday_7am
  let friday_7am := monday_7am + 4 * 86400
  if friday_7am ≤ now then none else some monday_7am

/-- `_get_this_weeks_attending_count` from `views.py`: 0 without a linked
group or outside the window; otherwise the count of the queryset
`PollAnswer.objects.filter(poll__node=node, poll__created__gte=window_start,
yes=True)`. -/
def get_this_weeks_attending_count (polls : List PollC)
    (answers : List PollAnswerRow) (node : NodeRef) (now : Int) : Nat :=
  if node.group = none then 0
  else
    match get_attending_window now with
    | none => 0
    | some ws =>
      (answers.filter fun a => a.yes &&
        (match polls.find? (fun p => p.telegram_id = a.poll) with
         | some p => decide (p.node = some node.id) && decide (ws ≤ p.created)
         | none => false)).length

/-- The most recent instant at or before `now` that is a Monday 07:00 UTC:
`now` minus the elapsed part of the weekly cycle anchored at 07:00 Monday
(25200 seconds into the 604800-second week). -/
def mondayAnchor (now : Int) : Int := now - (now - 25200) % 604800

/-- `_get_attending_window` in closed form: the window starts at the most
recent Monday 07:00 UTC and is open iff `now` is before the following
Friday 07:00 UTC. -/
theorem get_attending_window_eq (now : Int) :
    get_attending_window now =
      if mondayAnchor now + 345600 ≤ now then none
      else some (mondayAnchor now) := by
  unfold get_attending_window weekdayS mondayAnchor
  simp only []
  split_ifs with h1 h2 h3 h4 h5 <;>
    first
    | rfl
    | (exfalso; omega)
    | (simp only [Option.some.injEq]; omega)

/-- C7: `_get_this_weeks_attending_count` returns 0 when the node has no
linked group or when `now` is at or past the Friday 07:00 UTC that follows
the most recent Monday 07:00 UTC (whatever yes answers exist); inside the
window it counts exactly the yes PollAnswers on Polls linked to the node
created at or after that Monday instant.  The last conjunct states that
`mondayAnchor` is the most recent Monday-07:00 instant at or before
`now`. -/
theorem attending_count_window (polls : List PollC)
    (answers : List PollAnswerRow) (node : NodeRef) (now : Int) :
    (node.group = none →
      get_this_weeks_attending_count polls answers node now = 0) ∧
    (mondayAnchor now + 345600 ≤ now →
      get_this_weeks_attending_count polls answers node now = 0) ∧
    (node.group ≠ none → now < mondayAnchor now + 345600 →
      get_this_weeks_attending_count polls answers node now =
        (answers.filter fun a => a.yes &&
          (match polls.find? (fun p => p.telegram_id = a.poll) with
           | some p =>
             decide (p.node = some node.id) &&
               decide (mondayAnchor now ≤ p.created)
           | none => false)).length) ∧
    (mondayAnchor now ≤ now ∧ mondayAnchor now % 86400 = 25200 ∧
      weekdayS (mondayAnchor now) = 0 ∧
      ∀ t : Int, t % 86400 = 25200 → weekdayS t = 0 → t ≤ now →
        t ≤ mondayAnchor now) := by
  refine ⟨?_, ?_, ?_, ?_, ?_, ?_, ?_⟩
  · intro h
    simp [get_this_weeks_attending_count, h]
  · intro h
    unfold get_this_weeks_attending_count
    rw [get_attending_window_eq, if_pos h]
    split_ifs <;> rfl
  · intro hg hw
    unfold get_this_weeks_attending_count
    rw [if_neg hg, get_attending_window_eq,
      if_neg (show ¬ mondayAnchor now + 345600 ≤ now by omega)]
  · unfold mondayAnchor
    omega
  · unfold mondayAnchor
    omega
  · unfold mondayAnchor weekdayS
    omega
  · intro t h1 h2 h3
    unfold weekdayS at h2
    unfold mondayAnchor
    omega

/-- Witness for C7: with a poll created just inside the current window and
one just before it, a Wednesday-noon `now` counts only the in-window yes
answer (the no answer and the out-of-window yes answer are excluded); the
same data at Friday 08:00 reports 0, and a node without a linked group
reports 0. -/
theorem attending_count_window_witness :
    get_this_weeks_attending_count
      [⟨"pw", some 1, 60505210⟩, ⟨"old", some 1, 60505190⟩]
      [⟨"pw", 7, true⟩, ⟨"old", 8, true⟩, ⟨"pw", 9, false⟩]
      ⟨1, some 5, "N", ""⟩ 60696000 = 1 ∧
    get_this_weeks_attending_count
      [⟨"pw", some 1, 60505210⟩, ⟨"old", some 1, 60505190⟩]
      [⟨"pw", 7, true⟩, ⟨"old", 8, true⟩, ⟨"pw", 9, false⟩]
      ⟨1, some 5, "N", ""⟩ 60854400 = 0 ∧
    get_this_weeks_attending_count
      [⟨"pw", some 1, 60505210⟩, ⟨"old", some 1, 60505190⟩]
      [⟨"pw", 7, true⟩, ⟨"old", 8, true⟩, ⟨"pw", 9, false⟩]
      ⟨1, none, "N", ""⟩ 60696000 = 0 := by
  refine ⟨?_, ?_, ?_⟩
  · have h := (attending_count_window
      [⟨"pw", some 1, 60505210⟩, ⟨"old", some 1, 60505190⟩]
      [⟨"pw", 7, true⟩, ⟨"old", 8, true⟩, ⟨"pw", 9, false⟩]
      ⟨1, some 5, "N", ""⟩ 60696000).2.2.1 (by decide) (by decide)
    exact h.trans (by decide)
  · exact (attending_count_window
      [⟨"pw", some 1, 60505210⟩, ⟨"old", some 1, 60505190⟩]
      [⟨"pw", 7, true⟩, ⟨"old", 8, true⟩, ⟨"pw", 9, false⟩]
      ⟨1, some 5, "N", ""⟩ 60854400).2.1 (by decide)
  · exact (attending_count_window
      [⟨"pw", some 1, 60505210⟩, ⟨"old", some 1, 60505190⟩]
      [⟨"pw", 7, true⟩, ⟨"old", 8, true⟩, ⟨"pw", 9, false⟩]
      ⟨1, none, "N", ""⟩ 60696000).1 rfl

end Hackabot
